import Mathlib

/-!
Shallow embedding of `src/modules/wholeBodyTorqueObserver/main.cpp` (iCub
wholeBodyTorqueObserver module) and verification of its specification claims.

YARP `Vector` objects (vectors of `double`) are embedded as lists of rationals
(`List ℚ`): the module only performs field arithmetic (+, -, scalar *, /) on
them, which is exact over ℚ.  Out-of-scope collaborators (the iDyn dynamic
model `icub.upperTorso/lowerTorso`, the adaptive-window estimators
`AWLinEstimator`/`AWQuadEstimator`, the encoder devices and the YARP ports)
are abstracted as components of an environment record supplying one cycle's
externally-produced values, exactly as the spec's "external collaborators"
section directs.
-/

namespace WBTO

/-- YARP vectors of doubles, embedded as lists of rationals. -/
abbrev Vec := List ℚ

/-- Elementwise vector addition (`yarp::sig::Vector operator+`). -/
def vecAdd (a b : Vec) : Vec := List.zipWith (fun x y => x + y) a b

/-- Elementwise vector subtraction (`yarp::sig::Vector operator-`). -/
def vecSub (a b : Vec) : Vec := List.zipWith (fun x y => x - y) a b

/-- Scalar multiplication `c * v` on a YARP vector. -/
def vecScale (c : ℚ) (a : Vec) : Vec := a.map fun x => c * x

/-- The YARP assignment `v = 0.0`: every element becomes zero, length kept. -/
def vecZero (a : Vec) : Vec := a.map fun _ => (0 : ℚ)

/-- A C++ loop `for i: v(off+i) = xs[i]` writing consecutive entries of `v`. -/
def writeSeq : Vec → ℕ → Vec → Vec
  | v, _, [] => v
  | v, off, x :: xs => writeSeq (v.set off x) (off + 1) xs

/-- A C++ loop reading `len` consecutive entries of `src` starting at `off`
(out-of-range reads yield the default 0). -/
def readList (src : Vec) (off len : ℕ) : Vec :=
  (List.range len).map fun i => src.getD (off + i) 0

/-! ## The inertial prefilter (`lpf_ord1_3hz` and `dataFilter::onRead`)

`lpf_ord1_3hz` keeps per-channel history in the process-wide static arrays
`xv[MAX_FILTER_ORDER][MAX_JN]` and `yv[MAX_FILTER_ORDER][MAX_JN]`; only rows
0 and 1 of each are ever used, so a channel's state is the pair
(xv[1][j], yv[1][j]) — the scaled previous input and the previous output.
The C++ guard also rejects `j < 0` (an `int` index); indices here are `ℕ`,
which makes that branch vacuous. -/

/-- `MAX_JN` from the source. -/
def MAX_JN : ℕ := 12

/-- The filter's input scaling constant `1.870043440e+01` (exact rational). -/
def lpfC : ℚ := 1870043440 / 100000000

/-- The filter's pole coefficient `0.8930506128` (exact rational). -/
def lpfB : ℚ := 8930506128 / 10000000000

/-- Per-channel filter memory: channel `j` holds `(xv[1][j], yv[1][j])`. -/
abbrev FiltState := ℕ → ℚ × ℚ

/-- `lpf_ord1_3hz(input, j)`: returns the filtered value and the updated
per-channel static state.  Mirrors the source lines 143-158: an invalid
channel index returns 0 and leaves the state untouched. -/
def lpf_ord1_3hz (input : ℚ) (j : ℕ) (st : FiltState) : ℚ × FiltState :=
  if j < MAX_JN then
    let x0 := (st j).1
    let x1 := input / lpfC
    let y1 := (x0 + x1) + lpfB * (st j).2
    (y1, fun k => if k = j then (x1, y1) else st k)
  else
    (0, st)

/-- The loop body of `dataFilter::onRead`: feed the sample entries whose
indices are listed in `l` through `lpf_ord1_3hz`, collecting the filtered
values in order and threading the static filter state. -/
def onReadGo (x : Vec) : List ℕ → FiltState → Vec × FiltState
  | [], st => ([], st)
  | i :: is, st =>
    let p := lpf_ord1_3hz (x.getD i 0) i st
    let rest := onReadGo x is p.2
    (p.1 :: rest.1, rest.2)

/-- `dataFilter::onRead` on a raw inertial sample `x`: applies the filter to
channel `i` for each `i < x.length` in increasing order (lines 988-992). -/
def dataFilterOnRead (x : Vec) (st : FiltState) : Vec × FiltState :=
  onReadGo x (List.range x.length) st

/-- The angular-rate sextet republished by `onRead`: entries 3..8 of the
filtered vector (lines 993-998). -/
def onReadPublished (x : Vec) (st : FiltState) : Vec :=
  readList (dataFilterOnRead x st).1 3 6

/-! ### Unit-step response of one filter channel (claim C9) -/

/-- Filter state after `n` unit-step samples have been fed to channel 0,
starting from the all-zero static state. -/
def stepFilt : ℕ → FiltState
  | 0 => fun _ => (0, 0)
  | n + 1 => (lpf_ord1_3hz 1 0 (stepFilt n)).2

/-- The filter output on the (n+1)-st sample of a unit step. -/
def stepResp (n : ℕ) : ℚ := (lpf_ord1_3hz 1 0 (stepFilt n)).1

/-- The step-response limit `K = 2/(1.870043440e+01 * (1 − 0.8930506128))`. -/
def Kdc : ℚ := 2 / (lpfC * (1 - lpfB))

/-! ## The cyclic thread `inverseDynamics` -/

/-- `thread_status_enum` from the source. -/
inductive ThreadStatus
  | ok
  | disconnected
deriving DecidableEq

/-- The iCub limbs; torque output ports exist only for the arms and legs
(`port_RATorques`, `port_LATorques`, `port_RLTorques`, `port_LLTorques`). -/
inductive Limb
  | head
  | torso
  | leftArm
  | rightArm
  | leftLeg
  | rightLeg
deriving DecidableEq

/-- One Bottle written by `writeTorque`: the address int followed by the
torque values, sent on the named limb's torque port. -/
structure TorqueMsg where
  limb : Limb
  address : ℤ
  values : Vec
deriving DecidableEq

/-- Joint state of the upper-body groups (head, left arm, right arm). -/
structure UpperJoints where
  q_head : Vec
  dq_head : Vec
  d2q_head : Vec
  q_larm : Vec
  dq_larm : Vec
  d2q_larm : Vec
  q_rarm : Vec
  dq_rarm : Vec
  d2q_rarm : Vec
deriving DecidableEq

/-- Joint state of the lower-body groups (torso, left leg, right leg). -/
structure LowerJoints where
  q_torso : Vec
  dq_torso : Vec
  d2q_torso : Vec
  q_lleg : Vec
  dq_lleg : Vec
  d2q_lleg : Vec
  q_rleg : Vec
  dq_rleg : Vec
  d2q_rleg : Vec
deriving DecidableEq

/-- Input of `icub.upperTorso->update(w0,dw0,d2p0,F_RArm,F_LArm,F_up)`:
the explicit base-motion and wrench arguments plus the joint state stored
in the model by `setUpperMeasure` (in radians). -/
structure UpperIn where
  w0 : Vec
  dw0 : Vec
  d2p0 : Vec
  FRArm : Vec
  FLArm : Vec
  Fup : Vec
  joints : UpperJoints
deriving DecidableEq

/-- Output of the upper-chain update: the torso boundary motion
(`getTorsoAngVel` / `getTorsoAngAcc` / `getTorsoLinAcc`) and the per-part
torques returned by `getTorques`. -/
structure UpOut where
  torsoAngVel : Vec
  torsoAngAcc : Vec
  torsoLinAcc : Vec
  torques_larm : Vec
  torques_rarm : Vec
  torques_head : Vec
deriving DecidableEq

/-- Input of `icub.lowerTorso->update(angVel,angAcc,linAcc,F_RLeg,F_LLeg,F_up)`
plus the joint state stored in the model by `setLowerMeasure`. -/
structure LowerIn where
  angVel : Vec
  angAcc : Vec
  linAcc : Vec
  FRLeg : Vec
  FLLeg : Vec
  Fup : Vec
  joints : LowerJoints
deriving DecidableEq

/-- Output of the lower-chain update: per-part torques. -/
structure LowOut where
  torques_lleg : Vec
  torques_rleg : Vec
  torques_torso : Vec
deriving DecidableEq

/-- Per-cycle external world of the thread: what each non-blocking port read
delivers this cycle (`none` = no new message / failed encoder group read),
and the out-of-scope collaborators (derivative estimators, the two iDyn
chain models) as abstract functions.  `deg2rad` stands for the constant
`CTRL_DEG2RAD` (π/180 is irrational, so the scale factor is a parameter). -/
structure Env where
  enc_arm_left : Option Vec
  enc_arm_right : Option Vec
  enc_head : Option Vec
  enc_leg_left : Option Vec
  enc_leg_right : Option Vec
  enc_torso : Option Vec
  ft_arm_left : Option Vec
  ft_arm_right : Option Vec
  ft_leg_left : Option Vec
  ft_leg_right : Option Vec
  inertial : Option Vec
  estVelUp : Vec → Vec
  estAccUp : Vec → Vec
  estVelLow : Vec → Vec
  estAccLow : Vec → Vec
  estDomega : Vec → Vec
  upperUpdate : UpperIn → UpOut
  lowerUpdate : LowerIn → LowOut
  deg2rad : ℚ

/-- The `inverseDynamics` instance state: last read FT/inertial pointers,
measured wrenches, calibration offsets, encoder buffers, per-group joint
state, the concatenated super-group vectors, base motion, the joint and
inertial state stored inside the `icub` model objects, and the thread
status. -/
structure IDState where
  ft_arm_left : Option Vec
  ft_arm_right : Option Vec
  ft_leg_left : Option Vec
  ft_leg_right : Option Vec
  inertial : Option Vec
  F_LArm : Vec
  F_RArm : Vec
  F_LLeg : Vec
  F_RLeg : Vec
  Offset_LArm : Vec
  Offset_RArm : Vec
  Offset_LLeg : Vec
  Offset_RLeg : Vec
  encoders_arm_left : Vec
  encoders_arm_right : Vec
  encoders_head : Vec
  encoders_leg_left : Vec
  encoders_leg_right : Vec
  encoders_torso : Vec
  up : UpperJoints
  low : LowerJoints
  all_q_up : Vec
  all_dq_up : Vec
  all_d2q_up : Vec
  all_q_low : Vec
  all_dq_low : Vec
  all_d2q_low : Vec
  w0 : Vec
  dw0 : Vec
  d2p0 : Vec
  inertial_measurements : Vec
  icub_up : UpperJoints
  icub_low : LowerJoints
  icub_w0 : Vec
  icub_dw0 : Vec
  icub_d2p0 : Vec
  thread_status : ThreadStatus

/-- `getUpperEncodersSpeedAndAcceleration` (lines 821-863): read the three
upper encoder groups (a failed `getEncoders` leaves the buffer unchanged),
copy head/left-arm/right-arm positions in natural index order into the group
vectors and the concatenated `all_q_up`, differentiate the super-group once
for velocity and once for acceleration, and slice the results back per
group.  Returns the conjunction of the read successes. -/
def getUpperEncodersSpeedAndAcceleration (env : Env) (s : IDState) :
    IDState × Bool :=
  let encAL := env.enc_arm_left.getD s.encoders_arm_left
  let encAR := env.enc_arm_right.getD s.encoders_arm_right
  let encH := env.enc_head.getD s.encoders_head
  let b := env.enc_arm_left.isSome && env.enc_arm_right.isSome &&
    env.enc_head.isSome
  let nH := s.up.q_head.length
  let nLA := s.up.q_larm.length
  let nRA := s.up.q_rarm.length
  let listH := readList encH 0 nH
  let listLA := readList encAL 0 nLA
  let listRA := readList encAR 0 nRA
  let all_q :=
    writeSeq (writeSeq (writeSeq s.all_q_up 0 listH) nH listLA) (nH + nLA)
      listRA
  let all_dq := env.estVelUp all_q
  let all_d2q := env.estAccUp all_q
  ({ s with
      encoders_arm_left := encAL
      encoders_arm_right := encAR
      encoders_head := encH
      up := { q_head := writeSeq s.up.q_head 0 listH
              q_larm := writeSeq s.up.q_larm 0 listLA
              q_rarm := writeSeq s.up.q_rarm 0 listRA
              dq_head := writeSeq s.up.dq_head 0 (readList all_dq 0 nH)
              d2q_head := writeSeq s.up.d2q_head 0 (readList all_d2q 0 nH)
              dq_larm := writeSeq s.up.dq_larm 0 (readList all_dq nH nLA)
              d2q_larm := writeSeq s.up.d2q_larm 0 (readList all_d2q nH nLA)
              dq_rarm := writeSeq s.up.dq_rarm 0
                (readList all_dq (nH + nLA) nRA)
              d2q_rarm := writeSeq s.up.d2q_rarm 0
                (readList all_d2q (nH + nLA) nRA) }
      all_q_up := all_q
      all_dq_up := all_dq
      all_d2q_up := all_d2q }, b)

/-- `getLowerEncodersSpeedAndAcceleration` (lines 777-818): same as the
upper version for torso/left-leg/right-leg, except that the torso position
vector is filled in reversed encoder order, `q_torso(i) = encoders_torso(2-i)`
(line 786); the legs are copied in natural order. -/
def getLowerEncodersSpeedAndAcceleration (env : Env) (s : IDState) :
    IDState × Bool :=
  let encLL := env.enc_leg_left.getD s.encoders_leg_left
  let encLR := env.enc_leg_right.getD s.encoders_leg_right
  let encT := env.enc_torso.getD s.encoders_torso
  let b := env.enc_leg_left.isSome && env.enc_leg_right.isSome &&
    env.enc_torso.isSome
  let nT := s.low.q_torso.length
  let nLL := s.low.q_lleg.length
  let nRL := s.low.q_rleg.length
  let listT := (List.range nT).map fun i => encT.getD (2 - i) 0
  let listLL := readList encLL 0 nLL
  let listRL := readList encLR 0 nRL
  let all_q :=
    writeSeq (writeSeq (writeSeq s.all_q_low 0 listT) nT listLL) (nT + nLL)
      listRL
  let all_dq := env.estVelLow all_q
  let all_d2q := env.estAccLow all_q
  ({ s with
      encoders_leg_left := encLL
      encoders_leg_right := encLR
      encoders_torso := encT
      low := { q_torso := writeSeq s.low.q_torso 0 listT
               q_lleg := writeSeq s.low.q_lleg 0 listLL
               q_rleg := writeSeq s.low.q_rleg 0 listRL
               dq_torso := writeSeq s.low.dq_torso 0 (readList all_dq 0 nT)
               d2q_torso := writeSeq s.low.d2q_torso 0
                 (readList all_d2q 0 nT)
               dq_lleg := writeSeq s.low.dq_lleg 0 (readList all_dq nT nLL)
               d2q_lleg := writeSeq s.low.d2q_lleg 0
                 (readList all_d2q nT nLL)
               dq_rleg := writeSeq s.low.dq_rleg 0
                 (readList all_dq (nT + nLL) nRL)
               d2q_rleg := writeSeq s.low.d2q_rleg 0
                 (readList all_d2q (nT + nLL) nRL) }
      all_q_low := all_q
      all_dq_low := all_dq
      all_d2q_low := all_d2q }, b)

/-- Scale every vector of an upper joint state by `k` (`CTRL_DEG2RAD * v`). -/
def scaleUpperJoints (k : ℚ) (u : UpperJoints) : UpperJoints :=
  { q_head := vecScale k u.q_head
    dq_head := vecScale k u.dq_head
    d2q_head := vecScale k u.d2q_head
    q_larm := vecScale k u.q_larm
    dq_larm := vecScale k u.dq_larm
    d2q_larm := vecScale k u.d2q_larm
    q_rarm := vecScale k u.q_rarm
    dq_rarm := vecScale k u.dq_rarm
    d2q_rarm := vecScale k u.d2q_rarm }

/-- Scale every vector of a lower joint state by `k`. -/
def scaleLowerJoints (k : ℚ) (l : LowerJoints) : LowerJoints :=
  { q_torso := vecScale k l.q_torso
    dq_torso := vecScale k l.dq_torso
    d2q_torso := vecScale k l.d2q_torso
    q_lleg := vecScale k l.q_lleg
    dq_lleg := vecScale k l.dq_lleg
    d2q_lleg := vecScale k l.d2q_lleg
    q_rleg := vecScale k l.q_rleg
    dq_rleg := vecScale k l.dq_rleg
    d2q_rleg := vecScale k l.d2q_rleg }

/-- `setUpperMeasure(false)` (lines 910-924): store the deg→rad scaled
upper joint state and the base motion into `icub.upperTorso`.  The
`test==VOCAB_COMP` branch is dead code: `test` is set to 0 in the
constructor and never modified. -/
def setUpperMeasure (env : Env) (s : IDState) : IDState :=
  { s with
      icub_up := scaleUpperJoints env.deg2rad s.up
      icub_w0 := s.w0
      icub_dw0 := s.dw0
      icub_d2p0 := s.d2p0 }

/-- `setLowerMeasure(false)` (lines 865-893): store the deg→rad scaled lower
joint state into `icub.lowerTorso` (again, the `VOCAB_COMP` branch is dead). -/
def setLowerMeasure (env : Env) (s : IDState) : IDState :=
  { s with icub_low := scaleLowerJoints env.deg2rad s.low }

/-- `setZeroJntAngVelAcc` (lines 954-969): zero all joint velocity and
acceleration member vectors (YARP `v = 0.0` keeps the length). -/
def setZeroJntAngVelAcc (s : IDState) : IDState :=
  { s with
      up := { s.up with
                dq_head := vecZero s.up.dq_head
                d2q_head := vecZero s.up.d2q_head
                dq_larm := vecZero s.up.dq_larm
                d2q_larm := vecZero s.up.d2q_larm
                dq_rarm := vecZero s.up.dq_rarm
                d2q_rarm := vecZero s.up.d2q_rarm }
      low := { s.low with
                 dq_torso := vecZero s.low.dq_torso
                 d2q_torso := vecZero s.low.d2q_torso
                 dq_lleg := vecZero s.low.dq_lleg
                 d2q_lleg := vecZero s.low.d2q_lleg
                 dq_rleg := vecZero s.low.dq_rleg
                 d2q_rleg := vecZero s.low.d2q_rleg } }

/-- The `if(inertial!=0)` block of `readAndUpdate` (lines 756-768), acting
on the only four members it touches: when a new inertial frame `v` arrived,
`d2p0` receives entries 0-2, `w0` entries 3-5, `dw0 = eval_domega(w0)` and
the raw frame is stored; otherwise all four keep their previous values. -/
def inertialUpd (o : Option Vec) (est : Vec → Vec) (d2p0 w0 dw0 im : Vec) :
    Vec × Vec × Vec × Vec :=
  match o with
  | none => (d2p0, w0, dw0, im)
  | some v =>
    let w0n := writeSeq w0 0 [v.getD 3 0, v.getD 4 0, v.getD 5 0]
    (writeSeq d2p0 0 [v.getD 0 0, v.getD 1 0, v.getD 2 0], w0n, est w0n, v)

/-- `readAndUpdate(false)` as invoked from `run()` (lines 733-775): store
the four non-blocking FT port reads and the inertial read (the pointers are
overwritten with the read result, `none` when no new message); refresh the
base motion when a new inertial frame arrived; then read/differentiate the
upper groups, push the upper measures into the model, and the same for the
lower groups.  Returns the conjunction of the six encoder-read successes
(FT/inertial absence does not affect it). -/
def readAndUpdate (env : Env) (s : IDState) : IDState × Bool :=
  let s1 := { s with
                ft_arm_left := env.ft_arm_left
                ft_arm_right := env.ft_arm_right
                ft_leg_left := env.ft_leg_left
                ft_leg_right := env.ft_leg_right
                inertial := env.inertial }
  let t := inertialUpd env.inertial env.estDomega s1.d2p0 s1.w0 s1.dw0
    s1.inertial_measurements
  let s2 := { s1 with
                d2p0 := t.1
                w0 := t.2.1
                dw0 := t.2.2.1
                inertial_measurements := t.2.2.2 }
  let pU := getUpperEncodersSpeedAndAcceleration env s2
  let s3 := setUpperMeasure env pU.1
  let pL := getLowerEncodersSpeedAndAcceleration env s3
  let s4 := setLowerMeasure env pL.1
  (s4, pU.2 && pL.2)

/-- Whether all six encoder group reads succeed this cycle (the `b` value
returned by `readAndUpdate`). -/
def encodersOk (env : Env) : Bool :=
  (env.enc_arm_left.isSome && env.enc_arm_right.isSome &&
    env.enc_head.isSome) &&
  (env.enc_leg_left.isSome && env.enc_leg_right.isSome &&
    env.enc_torso.isSome)

/-- The measured-wrench convention: `-1.0 * (rawFrame - Offset)`. -/
def wrench (offset f : Vec) : Vec := vecScale (-1) (vecSub f offset)

/-- The guarded wrench update `if (ft != 0) F = -1.0*(*ft - Offset)`
(lines 494-497): a null pointer (no frame this cycle) keeps the previous
wrench value. -/
def ftWrenchUpd (o : Option Vec) (offset F : Vec) : Vec :=
  match o with
  | some f => wrench offset f
  | none => F

/-- What one invocation of `run()` passed to and received from the two chain
models, and the Bottles it published. -/
structure CycleTrace where
  upperIn : UpperIn
  upOut : UpOut
  lowerIn : LowerIn
  lowOut : LowOut
  messages : List TorqueMsg

/-- `inverseDynamics::run` (lines 470-581), with the dead
`test==VOCAB_TEST` / `comp==VOCAB_COMP` branches omitted (`test` and `comp`
are 0 forever): set the status from the read step, zero the joint
velocities/accelerations, push the (now zeroed) measures into the model,
update the four measured wrenches from the frames read this cycle, run the
upper chain, run the lower chain on the upper chain's torso boundary
outputs, and publish the four torque Bottles (right leg and left leg with
address 2, right arm and left arm with address 1; `HDTorques` and
`TSTorques` are computed by `getTorques` but never written to any port). -/
def run (env : Env) (s : IDState) : IDState × CycleTrace :=
  let p := readAndUpdate env s
  let s1 := { p.1 with
                thread_status :=
                  if p.2 then ThreadStatus.ok else ThreadStatus.disconnected }
  let s2 := setLowerMeasure env (setUpperMeasure env (setZeroJntAngVelAcc s1))
  let s3 := { s2 with
                F_LArm := ftWrenchUpd s2.ft_arm_left s2.Offset_LArm s2.F_LArm
                F_RArm := ftWrenchUpd s2.ft_arm_right s2.Offset_RArm s2.F_RArm
                F_LLeg := ftWrenchUpd s2.ft_leg_left s2.Offset_LLeg s2.F_LLeg
                F_RLeg :=
                  ftWrenchUpd s2.ft_leg_right s2.Offset_RLeg s2.F_RLeg }
  let F_up : Vec := List.replicate 6 0
  let upIn : UpperIn := { w0 := s3.w0
                          dw0 := s3.dw0
                          d2p0 := s3.d2p0
                          FRArm := s3.F_RArm
                          FLArm := s3.F_LArm
                          Fup := F_up
                          joints := s3.icub_up }
  let upOut := env.upperUpdate upIn
  let lowIn : LowerIn := { angVel := upOut.torsoAngVel
                           angAcc := upOut.torsoAngAcc
                           linAcc := upOut.torsoLinAcc
                           FRLeg := s3.F_RLeg
                           FLLeg := s3.F_LLeg
                           Fup := F_up
                           joints := s3.icub_low }
  let lowOut := env.lowerUpdate lowIn
  let msgs : List TorqueMsg :=
    [ { limb := Limb.rightLeg, address := 2, values := lowOut.torques_rleg },
      { limb := Limb.leftLeg, address := 2, values := lowOut.torques_lleg },
      { limb := Limb.rightArm, address := 1, values := upOut.torques_rarm },
      { limb := Limb.leftArm, address := 1, values := upOut.torques_larm } ]
  (s3, { upperIn := upIn
         upOut := upOut
         lowerIn := lowIn
         lowOut := lowOut
         messages := msgs })

/-! ## `calibrateOffset` (lines 670-732)

Each of the `Ntrials` iterations performs a blocking `readAndUpdate(true,true)`
(so every trial has genuine fresh sensor frames), evaluates the model's
sensor-wrench prediction (`estimateSensorsWrench` columns, negated into the
measurement convention), and accumulates `measured - predicted` per limb;
at the end each accumulator is scaled by `1/Ntrials`.  The blocking reads
and the model evaluation are out of scope, so a calibration environment
supplies, per trial, the four measured FT frames and the four raw
`estimateSensorsWrench` columns. -/

/-- Data delivered by the n-th blocking calibration trial. -/
structure CalibTrial where
  ftLA : Vec
  ftRA : Vec
  ftLL : Vec
  ftRL : Vec
  colUpRA : Vec
  colUpLA : Vec
  colLowRL : Vec
  colLowLL : Vec

/-- `F_iDyn_X = -1.0 * F_sensor.getCol(c)`: the model's sensor-wrench
prediction in the measurement sign convention. -/
def F_iDynOf (col : Vec) : Vec := vecScale (-1) col

/-- The per-limb accumulator of the calibration loop, starting from the
zeroed 6-element offset (`Offset_X.zero()`; all offsets are sized 6 by
`init_upper`/`init_lower`): after `n` trials it holds the running sum of
`diff i = measured i - predicted i` for `i < n`. -/
def offsetAccum (diff : ℕ → Vec) : ℕ → Vec
  | 0 => List.replicate 6 0
  | n + 1 => vecAdd (offsetAccum diff n) (diff n)

/-- `calibrateOffset(Ntrials)`: the four per-limb offsets
`(Offset_LArm, Offset_RArm, Offset_LLeg, Offset_RLeg)`, each the trial sum
of `measured - F_iDyn` scaled by `1/Ntrials`.  The left-arm prediction is
column 1 of the upper sensor matrix, the right arm column 0; the left leg
column 1 of the lower matrix, the right leg column 0 (lines 697-700). -/
def calibrateOffset (tr : ℕ → CalibTrial) (Ntrials : ℕ) :
    Vec × Vec × Vec × Vec :=
  (vecScale (1 / (Ntrials : ℚ))
      (offsetAccum (fun n => vecSub (tr n).ftLA (F_iDynOf (tr n).colUpLA))
        Ntrials),
   vecScale (1 / (Ntrials : ℚ))
      (offsetAccum (fun n => vecSub (tr n).ftRA (F_iDynOf (tr n).colUpRA))
        Ntrials),
   vecScale (1 / (Ntrials : ℚ))
      (offsetAccum (fun n => vecSub (tr n).ftLL (F_iDynOf (tr n).colLowLL))
        Ntrials),
   vecScale (1 / (Ntrials : ℚ))
      (offsetAccum (fun n => vecSub (tr n).ftRL (F_iDynOf (tr n).colLowRL))
        Ntrials))

/-! ## Concrete instances for witnesses and counterexamples -/

/-- Upper joint state as sized by `init_upper`: head 3, arms 7, all zero. -/
def initUpper : UpperJoints :=
  { q_head := List.replicate 3 0
    dq_head := List.replicate 3 0
    d2q_head := List.replicate 3 0
    q_larm := List.replicate 7 0
    dq_larm := List.replicate 7 0
    d2q_larm := List.replicate 7 0
    q_rarm := List.replicate 7 0
    dq_rarm := List.replicate 7 0
    d2q_rarm := List.replicate 7 0 }

/-- Lower joint state as sized by `init_lower`: torso 3, legs 7, all zero. -/
def initLower : LowerJoints :=
  { q_torso := List.replicate 3 0
    dq_torso := List.replicate 3 0
    d2q_torso := List.replicate 3 0
    q_lleg := List.replicate 7 0
    dq_lleg := List.replicate 7 0
    d2q_lleg := List.replicate 7 0
    q_rleg := List.replicate 7 0
    dq_rleg := List.replicate 7 0
    d2q_rleg := List.replicate 7 0 }

/-- A freshly initialized thread state: no frame ever received, zero
wrenches and offsets (6 elements each), zero joint state, 17-element
super-group vectors, 3-element base-motion vectors, status OK. -/
def initState : IDState :=
  { ft_arm_left := none
    ft_arm_right := none
    ft_leg_left := none
    ft_leg_right := none
    inertial := none
    F_LArm := List.replicate 6 0
    F_RArm := List.replicate 6 0
    F_LLeg := List.replicate 6 0
    F_RLeg := List.replicate 6 0
    Offset_LArm := List.replicate 6 0
    Offset_RArm := List.replicate 6 0
    Offset_LLeg := List.replicate 6 0
    Offset_RLeg := List.replicate 6 0
    encoders_arm_left := List.replicate 7 0
    encoders_arm_right := List.replicate 7 0
    encoders_head := List.replicate 3 0
    encoders_leg_left := List.replicate 7 0
    encoders_leg_right := List.replicate 7 0
    encoders_torso := List.replicate 3 0
    up := initUpper
    low := initLower
    all_q_up := List.replicate 17 0
    all_dq_up := List.replicate 17 0
    all_d2q_up := List.replicate 17 0
    all_q_low := List.replicate 17 0
    all_dq_low := List.replicate 17 0
    all_d2q_low := List.replicate 17 0
    w0 := List.replicate 3 0
    dw0 := List.replicate 3 0
    d2p0 := List.replicate 3 0
    inertial_measurements := List.replicate 12 0
    icub_up := initUpper
    icub_low := initLower
    icub_w0 := List.replicate 3 0
    icub_dw0 := List.replicate 3 0
    icub_d2p0 := List.replicate 3 0
    thread_status := ThreadStatus.ok }

/-- A healthy cycle environment: all encoder reads succeed with zeros, no
new FT or inertial frame, zero-returning estimators, a model stub whose
lower chain reports a distinctive nonzero torso torque vector. -/
def envZero : Env :=
  { enc_arm_left := some (List.replicate 7 0)
    enc_arm_right := some (List.replicate 7 0)
    enc_head := some (List.replicate 3 0)
    enc_leg_left := some (List.replicate 7 0)
    enc_leg_right := some (List.replicate 7 0)
    enc_torso := some (List.replicate 3 0)
    ft_arm_left := none
    ft_arm_right := none
    ft_leg_left := none
    ft_leg_right := none
    inertial := none
    estVelUp := fun _ => List.replicate 17 0
    estAccUp := fun _ => List.replicate 17 0
    estVelLow := fun _ => List.replicate 17 0
    estAccLow := fun _ => List.replicate 17 0
    estDomega := fun _ => List.replicate 3 0
    upperUpdate := fun _ =>
      { torsoAngVel := List.replicate 3 0
        torsoAngAcc := List.replicate 3 0
        torsoLinAcc := List.replicate 3 0
        torques_larm := List.replicate 7 0
        torques_rarm := List.replicate 7 0
        torques_head := List.replicate 3 0 }
    lowerUpdate := fun _ =>
      { torques_lleg := List.replicate 7 0
        torques_rleg := List.replicate 7 0
        torques_torso := [9, 9, 9] }
    deg2rad := 1 }

/-- `envZero` with estimators that return the all-ones vector: a cycle whose
Derivative Estimator output is visibly nonzero. -/
def envEst : Env :=
  { envZero with
      estVelUp := fun _ => List.replicate 17 1
      estAccUp := fun _ => List.replicate 17 1
      estVelLow := fun _ => List.replicate 17 1
      estAccLow := fun _ => List.replicate 17 1 }

/-- `envZero` with fresh FT frames on all four channels. -/
def envFT : Env :=
  { envZero with
      ft_arm_left := some [1, 2, 3, 4, 5, 6]
      ft_arm_right := some [2, 3, 4, 5, 6, 7]
      ft_leg_left := some [3, 4, 5, 6, 7, 8]
      ft_leg_right := some [4, 5, 6, 7, 8, 9] }

/-- `envZero` with a failed head encoder read. -/
def envFail : Env := { envZero with enc_head := none }

/-- `envZero` with distinctive encoder values on every group. -/
def envEnc : Env :=
  { envZero with
      enc_torso := some [10, 20, 30]
      enc_head := some [1, 2, 3]
      enc_arm_left := some [11, 12, 13, 14, 15, 16, 17]
      enc_arm_right := some [21, 22, 23, 24, 25, 26, 27]
      enc_leg_left := some [31, 32, 33, 34, 35, 36, 37]
      enc_leg_right := some [41, 42, 43, 44, 45, 46, 47] }

/-- A state whose stored wrenches were computed from previously received
frames (`[1..6]` on each channel against zero offsets). -/
def statePrev : IDState :=
  { initState with
      F_LArm := [-1, -2, -3, -4, -5, -6]
      F_RArm := [-1, -2, -3, -4, -5, -6]
      F_LLeg := [-1, -2, -3, -4, -5, -6]
      F_RLeg := [-1, -2, -3, -4, -5, -6] }

/-- A constant calibration environment: every blocking trial measures the
same frames and the model predicts the same sensor columns. -/
def trialConst : ℕ → CalibTrial := fun _ =>
  { ftLA := [1, 2, 3, 4, 5, 6]
    ftRA := [2, 3, 4, 5, 6, 7]
    ftLL := [3, 4, 5, 6, 7, 8]
    ftRL := [4, 5, 6, 7, 8, 9]
    colUpRA := [1, 1, 1, 1, 1, 1]
    colUpLA := [2, 2, 2, 2, 2, 2]
    colLowRL := [3, 3, 3, 3, 3, 3]
    colLowLL := [4, 4, 4, 4, 4, 4] }

/-- A concrete filter state whose channel histories all hold scaled previous
input 2 and previous output 5. -/
def filtStatePrev : FiltState := fun _ => (2 / lpfC, 5)

/-! ## Helper lemmas about the vector primitives -/

theorem writeSeq_length : ∀ (xs v : Vec) (off : ℕ),
    (writeSeq v off xs).length = v.length
  | [], _, _ => rfl
  | x :: xs, v, off => by
    rw [writeSeq, writeSeq_length xs, List.length_set]

theorem writeSeq_getD_lt : ∀ (xs v : Vec) (off j : ℕ) (d : ℚ), j < off →
    (writeSeq v off xs).getD j d = v.getD j d
  | [], _, _, _, _, _ => rfl
  | x :: xs, v, off, j, d, h => by
    rw [writeSeq, writeSeq_getD_lt xs _ _ _ _ (Nat.lt_succ_of_lt h)]
    simp [List.getD_eq_getElem?_getD, List.getElem?_set_ne (Nat.ne_of_gt h)]

theorem writeSeq_getD_mem : ∀ (xs v : Vec) (off i : ℕ) (d : ℚ),
    i < xs.length → off + xs.length ≤ v.length →
    (writeSeq v off xs).getD (off + i) d = xs.getD i d
  | [], _, _, i, _, hi, _ => absurd hi (by simp)
  | x :: xs, v, off, 0, d, _, hlen => by
    have hoff : off < v.length := by
      simp only [List.length_cons] at hlen; omega
    rw [writeSeq,
      writeSeq_getD_lt xs (v.set off x) (off + 1) (off + 0) d (by omega)]
    simp [List.getD_eq_getElem?_getD, List.getElem?_set_self hoff]
  | x :: xs, v, off, i + 1, d, hi, hlen => by
    rw [writeSeq, show off + (i + 1) = (off + 1) + i by omega]
    have h2 : (off + 1) + xs.length ≤ (v.set off x).length := by
      rw [List.length_set]; simp only [List.length_cons] at hlen; omega
    rw [writeSeq_getD_mem xs _ (off + 1) i d (by simpa using hi) h2]
    simp [List.getD_eq_getElem?_getD]

theorem getD_map_range (f : ℕ → ℚ) (n i : ℕ) (d : ℚ) (h : i < n) :
    ((List.range n).map f).getD i d = f i := by
  rw [List.getD_eq_getElem?_getD, List.getElem?_map, List.getElem?_range h]
  rfl

theorem readList_length (src : Vec) (off len : ℕ) :
    (readList src off len).length = len := by
  simp [readList]

theorem readList_getD (src : Vec) (off len i : ℕ) (h : i < len) :
    (readList src off len).getD i 0 = src.getD (off + i) 0 :=
  getD_map_range _ len i 0 h

theorem writeSeq_range_getD (v : Vec) (f : ℕ → ℚ) (n i : ℕ) (h : i < n)
    (hn : n ≤ v.length) :
    (writeSeq v 0 ((List.range n).map f)).getD i 0 = f i := by
  have := writeSeq_getD_mem ((List.range n).map f) v 0 i 0
    (by simpa using h) (by simpa using hn)
  rw [Nat.zero_add] at this
  rw [this, getD_map_range f n i 0 h]

theorem vecAdd_length (a b : Vec) :
    (vecAdd a b).length = min a.length b.length := by
  simp [vecAdd]

theorem vecSub_length (a b : Vec) :
    (vecSub a b).length = min a.length b.length := by
  simp [vecSub]

theorem vecScale_length (c : ℚ) (a : Vec) : (vecScale c a).length = a.length := by
  simp [vecScale]

theorem vecAdd_getD (a b : Vec) (i : ℕ) (ha : i < a.length)
    (hb : i < b.length) :
    (vecAdd a b).getD i 0 = a.getD i 0 + b.getD i 0 := by
  simp [vecAdd, List.getD_eq_getElem?_getD, List.getElem?_zipWith,
    List.getElem?_eq_getElem ha, List.getElem?_eq_getElem hb]

theorem vecSub_getD (a b : Vec) (i : ℕ) (ha : i < a.length)
    (hb : i < b.length) :
    (vecSub a b).getD i 0 = a.getD i 0 - b.getD i 0 := by
  simp [vecSub, List.getD_eq_getElem?_getD, List.getElem?_zipWith,
    List.getElem?_eq_getElem ha, List.getElem?_eq_getElem hb]

theorem vecScale_getD (c : ℚ) (a : Vec) (i : ℕ) (ha : i < a.length) :
    (vecScale c a).getD i 0 = c * a.getD i 0 := by
  simp [vecScale, List.getD_eq_getElem?_getD, List.getElem?_map,
    List.getElem?_eq_getElem ha]

theorem vecScale_one (a : Vec) : vecScale 1 a = a := by
  simp [vecScale]

theorem vecScale_vecScale (c k : ℚ) (a : Vec) :
    vecScale c (vecScale k a) = vecScale (c * k) a := by
  simp [vecScale, Function.comp, mul_assoc]

theorem vecScale_coeff_zero (a : Vec) :
    vecScale 0 a = List.replicate a.length 0 := by
  induction a with
  | nil => rfl
  | cons x xs ih =>
    show (0 * x) :: vecScale 0 xs = 0 :: List.replicate xs.length 0
    rw [zero_mul, ih]

theorem vecZero_eq_replicate (a : Vec) :
    vecZero a = List.replicate a.length 0 := by
  induction a with
  | nil => rfl
  | cons x xs ih =>
    show (0 : ℚ) :: vecZero xs = 0 :: List.replicate xs.length 0
    rw [ih]

theorem vecScale_vecZero (k : ℚ) (a : Vec) :
    vecScale k (vecZero a) = List.replicate a.length 0 := by
  rw [vecZero_eq_replicate]
  simp [vecScale, List.map_replicate]

theorem vecAdd_vecScale_succ (k : ℚ) (a : Vec) :
    vecAdd (vecScale k a) a = vecScale (k + 1) a := by
  induction a with
  | nil => rfl
  | cons x xs ih =>
    show (k * x + x) :: vecAdd (vecScale k xs) xs = ((k + 1) * x) :: vecScale (k + 1) xs
    rw [ih, show k * x + x = (k + 1) * x by ring]

/-! ## Structural facts about one `run()` cycle -/

theorem run_upperIn_joints (env : Env) (s : IDState) :
    (run env s).2.upperIn.joints =
      scaleUpperJoints env.deg2rad
        (setZeroJntAngVelAcc (readAndUpdate env s).1).up := rfl

theorem run_lowerIn_joints (env : Env) (s : IDState) :
    (run env s).2.lowerIn.joints =
      scaleLowerJoints env.deg2rad
        (setZeroJntAngVelAcc (readAndUpdate env s).1).low := rfl

theorem run_wrench_FLArm (env : Env) (s : IDState) :
    (run env s).1.F_LArm =
      ftWrenchUpd env.ft_arm_left s.Offset_LArm s.F_LArm := rfl

theorem run_wrench_FRArm (env : Env) (s : IDState) :
    (run env s).1.F_RArm =
      ftWrenchUpd env.ft_arm_right s.Offset_RArm s.F_RArm := rfl

theorem run_wrench_FLLeg (env : Env) (s : IDState) :
    (run env s).1.F_LLeg =
      ftWrenchUpd env.ft_leg_left s.Offset_LLeg s.F_LLeg := rfl

theorem run_wrench_FRLeg (env : Env) (s : IDState) :
    (run env s).1.F_RLeg =
      ftWrenchUpd env.ft_leg_right s.Offset_RLeg s.F_RLeg := rfl

theorem run_upperIn_FLArm (env : Env) (s : IDState) :
    (run env s).2.upperIn.FLArm =
      ftWrenchUpd env.ft_arm_left s.Offset_LArm s.F_LArm := rfl

theorem run_upperIn_FRArm (env : Env) (s : IDState) :
    (run env s).2.upperIn.FRArm =
      ftWrenchUpd env.ft_arm_right s.Offset_RArm s.F_RArm := rfl

theorem run_lowerIn_FLLeg (env : Env) (s : IDState) :
    (run env s).2.lowerIn.FLLeg =
      ftWrenchUpd env.ft_leg_left s.Offset_LLeg s.F_LLeg := rfl

theorem run_lowerIn_FRLeg (env : Env) (s : IDState) :
    (run env s).2.lowerIn.FRLeg =
      ftWrenchUpd env.ft_leg_right s.Offset_RLeg s.F_RLeg := rfl

theorem run_messages_eq (env : Env) (s : IDState) :
    (run env s).2.messages =
      [ { limb := Limb.rightLeg, address := 2,
          values := (run env s).2.lowOut.torques_rleg },
        { limb := Limb.leftLeg, address := 2,
          values := (run env s).2.lowOut.torques_lleg },
        { limb := Limb.rightArm, address := 1,
          values := (run env s).2.upOut.torques_rarm },
        { limb := Limb.leftArm, address := 1,
          values := (run env s).2.upOut.torques_larm } ] := rfl

theorem run_status_eq (env : Env) (s : IDState) :
    (run env s).1.thread_status =
      (if encodersOk env then ThreadStatus.ok else ThreadStatus.disconnected) :=
  rfl

/-- A scaled zeroed vector is the all-zero vector of its own length. -/
theorem scaleZero_self_replicate (k : ℚ) (w : Vec) :
    vecScale k (vecZero w) =
      List.replicate (vecScale k (vecZero w)).length 0 := by
  rw [vecScale_vecZero, List.length_replicate]

/-! ## Claim theorems -/

/-- Claim C5: in every cycle, the lower-torso update receives as base-motion
input exactly the torso boundary angular velocity, angular acceleration and
linear acceleration produced by the same cycle's upper-torso update, which
itself is the model evaluated on this cycle's upper input — the two chain
evaluations are tied by data dependence within one `run()`. -/
theorem lower_chain_consumes_upper_boundary (env : Env) (s : IDState) :
    (run env s).2.upOut = env.upperUpdate (run env s).2.upperIn ∧
    (run env s).2.lowOut = env.lowerUpdate (run env s).2.lowerIn ∧
    (run env s).2.lowerIn.angVel = (run env s).2.upOut.torsoAngVel ∧
    (run env s).2.lowerIn.angAcc = (run env s).2.upOut.torsoAngAcc ∧
    (run env s).2.lowerIn.linAcc = (run env s).2.upOut.torsoLinAcc :=
  ⟨rfl, rfl, rfl, rfl, rfl⟩

/-- Claim C7: the thread status each cycle is exactly determined by that
cycle's six encoder-group reads — OK when all succeed, DISCONNECTED
otherwise — independent of any previous cycle's status (no stickiness),
and the cycle always completes by publishing its four torque messages. -/
theorem status_reevaluated_every_cycle (env env2 : Env) (s : IDState) :
    ((run env s).1.thread_status =
      if encodersOk env then ThreadStatus.ok else ThreadStatus.disconnected) ∧
    (run env s).2.messages.length = 4 ∧
    ((run env2 (run env s).1).1.thread_status =
      if encodersOk env2 then ThreadStatus.ok else ThreadStatus.disconnected) :=
  ⟨rfl, rfl, rfl⟩

/-- Claim C1 (amended): every completed cycle publishes exactly four torque
messages — right leg (address 2), left leg (address 2), right arm
(address 1), left arm (address 1), in that order — each carrying the
corresponding limb's ordered torque vector from this cycle's chain
evaluations; no torso (and no head) torque message is published. -/
theorem run_publishes_four_torque_messages (env : Env) (s : IDState) :
    (run env s).2.messages =
      [ { limb := Limb.rightLeg, address := 2,
          values := (run env s).2.lowOut.torques_rleg },
        { limb := Limb.leftLeg, address := 2,
          values := (run env s).2.lowOut.torques_lleg },
        { limb := Limb.rightArm, address := 1,
          values := (run env s).2.upOut.torques_rarm },
        { limb := Limb.leftArm, address := 1,
          values := (run env s).2.upOut.torques_larm } ] ∧
    (run env s).2.upOut = env.upperUpdate (run env s).2.upperIn ∧
    (run env s).2.lowOut = env.lowerUpdate (run env s).2.lowerIn ∧
    (run env s).2.messages.map TorqueMsg.limb =
      [Limb.rightLeg, Limb.leftLeg, Limb.rightArm, Limb.leftArm] :=
  ⟨rfl, rfl, rfl, rfl⟩

/-- Claim C1 is false on the code: at a concrete healthy cycle the thread
does not publish five torque messages with exactly one for the torso —
only four messages go out and none of them is a torso message
(`TSTorques` is computed but never written to any port). -/
theorem run_no_torso_torque_message :
    ¬ ((run envZero initState).2.messages.length = 5 ∧
       ((run envZero initState).2.messages.filter
         (fun m => m.limb = Limb.torso)).length = 1) := by
  decide

/-- Claim C2 (amended): the joint velocities and accelerations supplied to
the two dynamics-model evaluations are identically zero every cycle —
`setZeroJntAngVelAcc` overwrites the estimator-derived values before
`setUpperMeasure`/`setLowerMeasure` push them into the model — so they are
never carried over from a stale cycle (they are freshly zeroed, not
freshly estimator-derived). -/
theorem model_receives_zero_vel_acc (env : Env) (s : IDState) :
    ((run env s).2.upperIn.joints.dq_head =
      List.replicate (run env s).2.upperIn.joints.dq_head.length 0) ∧
    ((run env s).2.upperIn.joints.d2q_head =
      List.replicate (run env s).2.upperIn.joints.d2q_head.length 0) ∧
    ((run env s).2.upperIn.joints.dq_larm =
      List.replicate (run env s).2.upperIn.joints.dq_larm.length 0) ∧
    ((run env s).2.upperIn.joints.d2q_larm =
      List.replicate (run env s).2.upperIn.joints.d2q_larm.length 0) ∧
    ((run env s).2.upperIn.joints.dq_rarm =
      List.replicate (run env s).2.upperIn.joints.dq_rarm.length 0) ∧
    ((run env s).2.upperIn.joints.d2q_rarm =
      List.replicate (run env s).2.upperIn.joints.d2q_rarm.length 0) ∧
    ((run env s).2.lowerIn.joints.dq_torso =
      List.replicate (run env s).2.lowerIn.joints.dq_torso.length 0) ∧
    ((run env s).2.lowerIn.joints.d2q_torso =
      List.replicate (run env s).2.lowerIn.joints.d2q_torso.length 0) ∧
    ((run env s).2.lowerIn.joints.dq_lleg =
      List.replicate (run env s).2.lowerIn.joints.dq_lleg.length 0) ∧
    ((run env s).2.lowerIn.joints.d2q_lleg =
      List.replicate (run env s).2.lowerIn.joints.d2q_lleg.length 0) ∧
    ((run env s).2.lowerIn.joints.dq_rleg =
      List.replicate (run env s).2.lowerIn.joints.dq_rleg.length 0) ∧
    ((run env s).2.lowerIn.joints.d2q_rleg =
      List.replicate (run env s).2.lowerIn.joints.d2q_rleg.length 0) :=
  ⟨scaleZero_self_replicate env.deg2rad (readAndUpdate env s).1.up.dq_head,
   scaleZero_self_replicate env.deg2rad (readAndUpdate env s).1.up.d2q_head,
   scaleZero_self_replicate env.deg2rad (readAndUpdate env s).1.up.dq_larm,
   scaleZero_self_replicate env.deg2rad (readAndUpdate env s).1.up.d2q_larm,
   scaleZero_self_replicate env.deg2rad (readAndUpdate env s).1.up.dq_rarm,
   scaleZero_self_replicate env.deg2rad (readAndUpdate env s).1.up.d2q_rarm,
   scaleZero_self_replicate env.deg2rad (readAndUpdate env s).1.low.dq_torso,
   scaleZero_self_replicate env.deg2rad (readAndUpdate env s).1.low.d2q_torso,
   scaleZero_self_replicate env.deg2rad (readAndUpdate env s).1.low.dq_lleg,
   scaleZero_self_replicate env.deg2rad (readAndUpdate env s).1.low.d2q_lleg,
   scaleZero_self_replicate env.deg2rad (readAndUpdate env s).1.low.dq_rleg,
   scaleZero_self_replicate env.deg2rad (readAndUpdate env s).1.low.d2q_rleg⟩

/-- Claim C2 is false as stated: at a concrete cycle whose Derivative
Estimator returns the all-ones vector, the head joint velocities supplied
to the model are `[0,0,0]`, not the estimator-derived (deg→rad scaled)
slice `[1,1,1]` of that cycle's estimate. -/
theorem model_vel_not_estimator_derived :
    (run envEst initState).2.upperIn.joints.dq_head = [0, 0, 0] ∧
    (run envEst initState).1.all_dq_up = List.replicate 17 1 ∧
    vecScale envEst.deg2rad
      (readList (run envEst initState).1.all_dq_up 0 3) = [1, 1, 1] ∧
    (run envEst initState).2.upperIn.joints.dq_head ≠
      vecScale envEst.deg2rad
        (readList (run envEst initState).1.all_dq_up 0 3) := by
  have h1 : (run envEst initState).2.upperIn.joints.dq_head =
      vecScale envEst.deg2rad
        (vecZero ((readAndUpdate envEst initState).1.up.dq_head)) := rfl
  have hlen : ((readAndUpdate envEst initState).1.up.dq_head).length = 3 := rfl
  have h0 : (run envEst initState).2.upperIn.joints.dq_head = [0, 0, 0] := by
    rw [h1, vecScale_vecZero, hlen]
    rfl
  have h2 : (run envEst initState).1.all_dq_up = List.replicate 17 1 := rfl
  have h4 : vecScale envEst.deg2rad
      (readList (run envEst initState).1.all_dq_up 0 3) = [1, 1, 1] := by
    rw [h2, show readList (List.replicate 17 (1 : ℚ)) 0 3 = [1, 1, 1] from rfl,
      show envEst.deg2rad = 1 from rfl, vecScale_one]
  refine ⟨h0, h2, h4, ?_⟩
  rw [h0, h4]
  norm_num

/-- Claim C3: in any cycle in which an arm or leg FT channel delivers no
new frame, the wrench used for that limb equals the wrench computed from
the previously stored frame (the prior snapshot is retained, not replaced
by a zero default), and the cycle's computation proceeds to publish its
four torque messages. -/
theorem missing_frame_retains_wrench (env : Env) (s : IDState)
    (fLA fRA fLL fRL : Vec) :
    (env.ft_arm_left = none → s.F_LArm = wrench s.Offset_LArm fLA →
      (run env s).1.F_LArm = wrench s.Offset_LArm fLA ∧
      (run env s).2.upperIn.FLArm = wrench s.Offset_LArm fLA) ∧
    (env.ft_arm_right = none → s.F_RArm = wrench s.Offset_RArm fRA →
      (run env s).1.F_RArm = wrench s.Offset_RArm fRA ∧
      (run env s).2.upperIn.FRArm = wrench s.Offset_RArm fRA) ∧
    (env.ft_leg_left = none → s.F_LLeg = wrench s.Offset_LLeg fLL →
      (run env s).1.F_LLeg = wrench s.Offset_LLeg fLL ∧
      (run env s).2.lowerIn.FLLeg = wrench s.Offset_LLeg fLL) ∧
    (env.ft_leg_right = none → s.F_RLeg = wrench s.Offset_RLeg fRL →
      (run env s).1.F_RLeg = wrench s.Offset_RLeg fRL ∧
      (run env s).2.lowerIn.FRLeg = wrench s.Offset_RLeg fRL) ∧
    (run env s).2.messages.length = 4 := by
  refine ⟨fun h hF => ?_, fun h hF => ?_, fun h hF => ?_, fun h hF => ?_, rfl⟩
  · exact ⟨by rw [run_wrench_FLArm, h]; exact hF,
      by rw [run_upperIn_FLArm, h]; exact hF⟩
  · exact ⟨by rw [run_wrench_FRArm, h]; exact hF,
      by rw [run_upperIn_FRArm, h]; exact hF⟩
  · exact ⟨by rw [run_wrench_FLLeg, h]; exact hF,
      by rw [run_lowerIn_FLLeg, h]; exact hF⟩
  · exact ⟨by rw [run_wrench_FRLeg, h]; exact hF,
      by rw [run_lowerIn_FRLeg, h]; exact hF⟩

/-- Witness for C3: a concrete cycle with no new frame on any channel, a
state holding the wrench computed from the previously received frame
`[1..6]` against zero offsets, and the retained value after `run`. -/
theorem missing_frame_retains_wrench_witness :
    envZero.ft_arm_left = none ∧
    statePrev.F_LArm = wrench statePrev.Offset_LArm [1, 2, 3, 4, 5, 6] ∧
    (run envZero statePrev).1.F_LArm =
      wrench statePrev.Offset_LArm [1, 2, 3, 4, 5, 6] := by
  have hF : statePrev.F_LArm = wrench statePrev.Offset_LArm [1, 2, 3, 4, 5, 6] := by
    show ([-1, -2, -3, -4, -5, -6] : Vec) =
      wrench (List.replicate 6 0) [1, 2, 3, 4, 5, 6]
    norm_num [wrench, vecScale, vecSub, List.replicate]
  exact ⟨rfl, hF,
    ((missing_frame_retains_wrench envZero statePrev
      [1, 2, 3, 4, 5, 6] [] [] []).1 rfl hF).1⟩

/-- Claim C6: in every cycle, for each limb whose sensor frame is available
— either a new frame arrived this cycle, or none arrived and the stored
wrench was computed from the previously received frame — the measured
wrench supplied to the dynamics model equals `-1 * (rawFrame - Offset)`,
and it is exactly the wrench stored back into the state. -/
theorem available_frame_wrench_convention (env : Env) (s : IDState)
    (fLA fRA fLL fRL : Vec)
    (hLA : env.ft_arm_left = some fLA ∨
      (env.ft_arm_left = none ∧ s.F_LArm = wrench s.Offset_LArm fLA))
    (hRA : env.ft_arm_right = some fRA ∨
      (env.ft_arm_right = none ∧ s.F_RArm = wrench s.Offset_RArm fRA))
    (hLL : env.ft_leg_left = some fLL ∨
      (env.ft_leg_left = none ∧ s.F_LLeg = wrench s.Offset_LLeg fLL))
    (hRL : env.ft_leg_right = some fRL ∨
      (env.ft_leg_right = none ∧ s.F_RLeg = wrench s.Offset_RLeg fRL)) :
    (run env s).2.upperIn.FLArm = wrench s.Offset_LArm fLA ∧
    (run env s).2.upperIn.FRArm = wrench s.Offset_RArm fRA ∧
    (run env s).2.lowerIn.FLLeg = wrench s.Offset_LLeg fLL ∧
    (run env s).2.lowerIn.FRLeg = wrench s.Offset_RLeg fRL ∧
    (run env s).1.F_LArm = (run env s).2.upperIn.FLArm ∧
    (run env s).1.F_RArm = (run env s).2.upperIn.FRArm ∧
    (run env s).1.F_LLeg = (run env s).2.lowerIn.FLLeg ∧
    (run env s).1.F_RLeg = (run env s).2.lowerIn.FRLeg := by
  refine ⟨?_, ?_, ?_, ?_, rfl, rfl, rfl, rfl⟩
  · rcases hLA with h | ⟨h1, h2⟩
    · rw [run_upperIn_FLArm, h]; exact rfl
    · rw [run_upperIn_FLArm, h1]; exact h2
  · rcases hRA with h | ⟨h1, h2⟩
    · rw [run_upperIn_FRArm, h]; exact rfl
    · rw [run_upperIn_FRArm, h1]; exact h2
  · rcases hLL with h | ⟨h1, h2⟩
    · rw [run_lowerIn_FLLeg, h]; exact rfl
    · rw [run_lowerIn_FLLeg, h1]; exact h2
  · rcases hRL with h | ⟨h1, h2⟩
    · rw [run_lowerIn_FRLeg, h]; exact rfl
    · rw [run_lowerIn_FRLeg, h1]; exact h2

/-- Witness for C6: a concrete cycle with fresh frames on all four
channels. -/
theorem available_frame_wrench_convention_witness :
    envFT.ft_arm_left = some [1, 2, 3, 4, 5, 6] ∧
    (run envFT initState).2.upperIn.FLArm =
      wrench initState.Offset_LArm [1, 2, 3, 4, 5, 6] ∧
    (run envFT initState).2.lowerIn.FRLeg =
      wrench initState.Offset_RLeg [4, 5, 6, 7, 8, 9] := by
  have h := available_frame_wrench_convention envFT initState
    [1, 2, 3, 4, 5, 6] [2, 3, 4, 5, 6, 7] [3, 4, 5, 6, 7, 8] [4, 5, 6, 7, 8, 9]
    (Or.inl rfl) (Or.inl rfl) (Or.inl rfl) (Or.inl rfl)
  exact ⟨rfl, h.1, h.2.2.2.1⟩

/-! ## Calibration lemmas (claim C4) -/

theorem getD_replicate_zero (n i : ℕ) :
    (List.replicate n (0 : ℚ)).getD i 0 = 0 := by
  rw [List.getD_eq_getElem?_getD, List.getElem?_replicate]
  split <;> rfl

theorem offsetAccum_length (diff : ℕ → Vec) (hd : ∀ n, (diff n).length = 6) :
    ∀ N, (offsetAccum diff N).length = 6
  | 0 => by simp [offsetAccum]
  | N + 1 => by
    rw [offsetAccum, vecAdd_length, offsetAccum_length diff hd N, hd N]
    exact min_self 6

theorem offsetAccum_getD (diff : ℕ → Vec) (hd : ∀ n, (diff n).length = 6)
    (i : ℕ) (hi : i < 6) :
    ∀ N, (offsetAccum diff N).getD i 0 =
      ∑ n in Finset.range N, (diff n).getD i 0
  | 0 => by
    rw [offsetAccum, getD_replicate_zero, Finset.range_zero, Finset.sum_empty]
  | N + 1 => by
    rw [offsetAccum,
      vecAdd_getD _ _ i (by rw [offsetAccum_length diff hd N]; exact hi)
        (by rw [hd N]; exact hi),
      offsetAccum_getD diff hd i hi N, Finset.sum_range_succ]

theorem diff_length_six (a b : Vec) (ha : a.length = 6) (hb : b.length = 6) :
    (vecSub a (F_iDynOf b)).length = 6 := by
  rw [vecSub_length, ha, F_iDynOf, vecScale_length, hb]
  exact min_self 6

theorem calibLimb_mean (meas col : ℕ → Vec) (N : ℕ)
    (hm : ∀ n, (meas n).length = 6) (hc : ∀ n, (col n).length = 6)
    (i : ℕ) (hi : i < 6) :
    (vecScale (1 / (N : ℚ))
      (offsetAccum (fun n => vecSub (meas n) (F_iDynOf (col n))) N)).getD i 0 =
      (∑ n in Finset.range N,
        ((meas n).getD i 0 - (F_iDynOf (col n)).getD i 0)) / N := by
  have hd : ∀ n, (vecSub (meas n) (F_iDynOf (col n))).length = 6 := fun n =>
    diff_length_six _ _ (hm n) (hc n)
  rw [vecScale_getD _ _ i (by rw [offsetAccum_length _ hd]; exact hi),
    offsetAccum_getD _ hd i hi N]
  have hsum : ∀ n ∈ Finset.range N,
      (vecSub (meas n) (F_iDynOf (col n))).getD i 0 =
        (meas n).getD i 0 - (F_iDynOf (col n)).getD i 0 := fun n _ =>
    vecSub_getD _ _ i (by rw [hm n]; exact hi)
      (by rw [F_iDynOf, vecScale_length, hc n]; exact hi)
  rw [Finset.sum_congr rfl hsum, one_div, inv_mul_eq_div]

theorem offsetAccum_const (d : Vec) (hd : d.length = 6) :
    ∀ N, offsetAccum (fun _ => d) N = vecScale (N : ℚ) d
  | 0 => by rw [offsetAccum, Nat.cast_zero, vecScale_coeff_zero, hd]
  | N + 1 => by
    rw [offsetAccum, offsetAccum_const d hd N, vecAdd_vecScale_succ,
      Nat.cast_succ]

theorem calibLimb_const (d : Vec) (hd : d.length = 6) (N : ℕ) (hN : 1 ≤ N) :
    vecScale (1 / (N : ℚ)) (offsetAccum (fun _ => d) N) = d := by
  have hNz : (N : ℚ) ≠ 0 := Nat.cast_ne_zero.mpr (by omega)
  rw [offsetAccum_const d hd N, vecScale_vecScale, one_div,
    inv_mul_cancel₀ hNz, vecScale_one]

/-- Claim C4: for every `Ntrials ≥ 1`, `calibrateOffset` sets each limb's
offset to the arithmetic mean over the trials of
(measured raw frame − model-predicted sensor wrench `F_iDyn`), and in
particular when the measured frames and predicted columns are constant
across trials the offset equals measured − predicted exactly, for any
`Ntrials`. -/
theorem calibrateOffset_mean_and_exact (tr : ℕ → CalibTrial) (Ntrials : ℕ)
    (hN : 1 ≤ Ntrials)
    (hlen : ∀ n, (tr n).ftLA.length = 6 ∧ (tr n).ftRA.length = 6 ∧
      (tr n).ftLL.length = 6 ∧ (tr n).ftRL.length = 6 ∧
      (tr n).colUpLA.length = 6 ∧ (tr n).colUpRA.length = 6 ∧
      (tr n).colLowLL.length = 6 ∧ (tr n).colLowRL.length = 6) :
    (∀ i, i < 6 →
      (calibrateOffset tr Ntrials).1.getD i 0 =
        (∑ n in Finset.range Ntrials,
          ((tr n).ftLA.getD i 0 - (F_iDynOf (tr n).colUpLA).getD i 0)) /
          Ntrials ∧
      (calibrateOffset tr Ntrials).2.1.getD i 0 =
        (∑ n in Finset.range Ntrials,
          ((tr n).ftRA.getD i 0 - (F_iDynOf (tr n).colUpRA).getD i 0)) /
          Ntrials ∧
      (calibrateOffset tr Ntrials).2.2.1.getD i 0 =
        (∑ n in Finset.range Ntrials,
          ((tr n).ftLL.getD i 0 - (F_iDynOf (tr n).colLowLL).getD i 0)) /
          Ntrials ∧
      (calibrateOffset tr Ntrials).2.2.2.getD i 0 =
        (∑ n in Finset.range Ntrials,
          ((tr n).ftRL.getD i 0 - (F_iDynOf (tr n).colLowRL).getD i 0)) /
          Ntrials) ∧
    ((∀ n, tr n = tr 0) →
      (calibrateOffset tr Ntrials).1 =
        vecSub (tr 0).ftLA (F_iDynOf (tr 0).colUpLA) ∧
      (calibrateOffset tr Ntrials).2.1 =
        vecSub (tr 0).ftRA (F_iDynOf (tr 0).colUpRA) ∧
      (calibrateOffset tr Ntrials).2.2.1 =
        vecSub (tr 0).ftLL (F_iDynOf (tr 0).colLowLL) ∧
      (calibrateOffset tr Ntrials).2.2.2 =
        vecSub (tr 0).ftRL (F_iDynOf (tr 0).colLowRL)) := by
  constructor
  · intro i hi
    exact ⟨calibLimb_mean _ _ Ntrials (fun n => (hlen n).1)
        (fun n => (hlen n).2.2.2.2.1) i hi,
      calibLimb_mean _ _ Ntrials (fun n => (hlen n).2.1)
        (fun n => (hlen n).2.2.2.2.2.1) i hi,
      calibLimb_mean _ _ Ntrials (fun n => (hlen n).2.2.1)
        (fun n => (hlen n).2.2.2.2.2.2.1) i hi,
      calibLimb_mean _ _ Ntrials (fun n => (hlen n).2.2.2.1)
        (fun n => (hlen n).2.2.2.2.2.2.2) i hi⟩
  · intro hconst
    refine ⟨?_, ?_, ?_, ?_⟩
    · show vecScale (1 / (Ntrials : ℚ))
        (offsetAccum (fun n => vecSub (tr n).ftLA (F_iDynOf (tr n).colUpLA))
          Ntrials) = _
      rw [show (fun n => vecSub (tr n).ftLA (F_iDynOf (tr n).colUpLA)) =
          fun _ => vecSub (tr 0).ftLA (F_iDynOf (tr 0).colUpLA) from
        funext fun n => by rw [hconst n]]
      exact calibLimb_const _
        (diff_length_six _ _ (hlen 0).1 (hlen 0).2.2.2.2.1) Ntrials hN
    · show vecScale (1 / (Ntrials : ℚ))
        (offsetAccum (fun n => vecSub (tr n).ftRA (F_iDynOf (tr n).colUpRA))
          Ntrials) = _
      rw [show (fun n => vecSub (tr n).ftRA (F_iDynOf (tr n).colUpRA)) =
          fun _ => vecSub (tr 0).ftRA (F_iDynOf (tr 0).colUpRA) from
        funext fun n => by rw [hconst n]]
      exact calibLimb_const _
        (diff_length_six _ _ (hlen 0).2.1 (hlen 0).2.2.2.2.2.1) Ntrials hN
    · show vecScale (1 / (Ntrials : ℚ))
        (offsetAccum (fun n => vecSub (tr n).ftLL (F_iDynOf (tr n).colLowLL))
          Ntrials) = _
      rw [show (fun n => vecSub (tr n).ftLL (F_iDynOf (tr n).colLowLL)) =
          fun _ => vecSub (tr 0).ftLL (F_iDynOf (tr 0).colLowLL) from
        funext fun n => by rw [hconst n]]
      exact calibLimb_const _
        (diff_length_six _ _ (hlen 0).2.2.1 (hlen 0).2.2.2.2.2.2.1) Ntrials hN
    · show vecScale (1 / (Ntrials : ℚ))
        (offsetAccum (fun n => vecSub (tr n).ftRL (F_iDynOf (tr n).colLowRL))
          Ntrials) = _
      rw [show (fun n => vecSub (tr n).ftRL (F_iDynOf (tr n).colLowRL)) =
          fun _ => vecSub (tr 0).ftRL (F_iDynOf (tr 0).colLowRL) from
        funext fun n => by rw [hconst n]]
      exact calibLimb_const _
        (diff_length_six _ _ (hlen 0).2.2.2.1 (hlen 0).2.2.2.2.2.2.2)
        Ntrials hN

/-- Witness for C4: calibrating 3 constant trials yields exactly
measured − predicted for the left arm. -/
theorem calibrateOffset_mean_and_exact_witness :
    1 ≤ 3 ∧
    (calibrateOffset trialConst 3).1 =
      vecSub (trialConst 0).ftLA (F_iDynOf (trialConst 0).colUpLA) :=
  ⟨by norm_num,
    ((calibrateOffset_mean_and_exact trialConst 3 (by norm_num)
      (fun n => by simp [trialConst])).2 (fun n => rfl)).1⟩

/-! ## Filter lemmas (claims C8 and C9) -/

theorem lpf_state_ne (v : ℚ) (i : ℕ) (st : FiltState) (k : ℕ) (h : k ≠ i) :
    ((lpf_ord1_3hz v i st).2) k = st k := by
  unfold lpf_ord1_3hz
  split
  · simp [h]
  · rfl

theorem lpf_state_congr_at (v : ℚ) (j : ℕ) (st st2 : FiltState)
    (h : st j = st2 j) :
    ((lpf_ord1_3hz v j st).2) j = ((lpf_ord1_3hz v j st2).2) j := by
  unfold lpf_ord1_3hz
  split
  · simp [h]
  · exact h

theorem onReadGo_state_not_mem (x : Vec) :
    ∀ (l : List ℕ) (st : FiltState) (j : ℕ), j ∉ l →
      ((onReadGo x l st).2) j = st j
  | [], _, _, _ => rfl
  | i :: is, st, j, h => by
    have h1 : j ≠ i := fun e => h (e ▸ List.mem_cons_self i is)
    have h2 : j ∉ is := fun m => h (List.mem_cons_of_mem i m)
    show ((onReadGo x is (lpf_ord1_3hz (x.getD i 0) i st).2).2) j = st j
    rw [onReadGo_state_not_mem x is _ j h2, lpf_state_ne _ _ _ _ h1]

theorem onReadGo_state_mem (x : Vec) :
    ∀ (l : List ℕ) (st : FiltState) (j : ℕ), j ∈ l → l.Nodup →
      ((onReadGo x l st).2) j = ((lpf_ord1_3hz (x.getD j 0) j st).2) j
  | [], _, j, h, _ => absurd h (List.not_mem_nil j)
  | i :: is, st, j, h, hnd => by
    rcases List.mem_cons.mp h with he | hm
    · subst he
      show ((onReadGo x is (lpf_ord1_3hz (x.getD j 0) j st).2).2) j = _
      exact onReadGo_state_not_mem x is _ j (List.nodup_cons.mp hnd).1
    · have hne : j ≠ i := by
        intro e
        subst e
        exact (List.nodup_cons.mp hnd).1 hm
      show ((onReadGo x is (lpf_ord1_3hz (x.getD i 0) i st).2).2) j = _
      rw [onReadGo_state_mem x is _ j hm (List.nodup_cons.mp hnd).2]
      exact lpf_state_congr_at _ _ _ _ (lpf_state_ne _ _ _ _ hne)

/-- Claim C8: for an inbound raw sample `x` and any channel `j < 12` present
in the sample, `dataFilter::onRead` updates channel `j` — and only from
channel `j`'s own stored history `(x[n-1]/C, y[n-1])` and its own sample
entry — to `(x[n]/C, y[n])` with
`y[n] = (x[n-1] + x[n]) / 18.70043440 + 0.8930506128 * y[n-1]`. -/
theorem onRead_channel_recursion (x : Vec) (st : FiltState) (j : ℕ)
    (xprev yprev : ℚ) (hj12 : j < 12) (hjx : j < x.length)
    (hst : st j = (xprev / lpfC, yprev)) :
    (dataFilterOnRead x st).2 j =
      (x.getD j 0 / lpfC,
        (xprev + x.getD j 0) / lpfC + lpfB * yprev) := by
  have h := onReadGo_state_mem x (List.range x.length) st j
    (List.mem_range.mpr hjx) (List.nodup_range _)
  rw [show (dataFilterOnRead x st).2 j =
      (onReadGo x (List.range x.length) st).2 j from rfl, h]
  unfold lpf_ord1_3hz
  rw [if_pos (show j < MAX_JN from hj12)]
  simp only [if_pos rfl, hst]
  refine Prod.ext rfl ?_
  show (xprev / lpfC + x.getD j 0 / lpfC) + lpfB * yprev = _
  rw [add_div]

/-- Witness for C8: channel 1 of a two-entry sample, starting from a state
whose history holds previous raw input 2 and previous output 5. -/
theorem onRead_channel_recursion_witness :
    (1 : ℕ) < 12 ∧ (1 : ℕ) < ([4, 4] : Vec).length ∧
    filtStatePrev 1 = (2 / lpfC, 5) ∧
    (dataFilterOnRead [4, 4] filtStatePrev).2 1 =
      ((4 : ℚ) / lpfC, ((2 : ℚ) + 4) / lpfC + lpfB * 5) := by
  refine ⟨by norm_num, by norm_num, rfl, ?_⟩
  have h := onRead_channel_recursion [4, 4] filtStatePrev 1 2 5
    (by norm_num) (by norm_num) rfl
  simpa using h

/-! ### Step response (claim C9) -/

theorem stepResp_zero : stepResp 0 = 1 / lpfC := by
  norm_num [stepResp, stepFilt, lpf_ord1_3hz, MAX_JN]

theorem stepResp_succ (n : ℕ) :
    stepResp (n + 1) = 2 / lpfC + lpfB * stepResp n := by
  have hst : stepFilt (n + 1) 0 = (1 / lpfC, stepResp n) := rfl
  have h2 : stepResp (n + 1) =
      ((stepFilt (n + 1)) 0).1 + 1 / lpfC + lpfB * ((stepFilt (n + 1)) 0).2 := by
    norm_num [stepResp, lpf_ord1_3hz, MAX_JN]
  rw [h2, hst]
  norm_num
  ring

theorem Kdc_gap (n : ℕ) :
    Kdc - stepResp n = lpfB ^ n * (Kdc - stepResp 0) := by
  induction n with
  | zero => simp
  | succ n ih =>
    have hK : Kdc = 2 / lpfC + lpfB * Kdc := by norm_num [Kdc, lpfB, lpfC]
    calc Kdc - stepResp (n + 1)
        = (2 / lpfC + lpfB * Kdc) - (2 / lpfC + lpfB * stepResp n) := by
          rw [stepResp_succ, ← hK]
      _ = lpfB * (Kdc - stepResp n) := by ring
      _ = lpfB ^ (n + 1) * (Kdc - stepResp 0) := by rw [ih, pow_succ]; ring

theorem stepResp_le_Kdc (n : ℕ) : stepResp n ≤ Kdc := by
  have h := Kdc_gap n
  have hB : (0 : ℚ) ≤ lpfB := by norm_num [lpfB]
  have hg : (0 : ℚ) ≤ Kdc - stepResp 0 := by
    rw [stepResp_zero]
    norm_num [Kdc, lpfB, lpfC]
  nlinarith [mul_nonneg (pow_nonneg hB n) hg]

/-- Claim C9: starting from zero filter state, the unit-step response of the
single-pole filter is monotonically non-decreasing, never exceeds
`K = 2/(18.70043440 * (1 − 0.8930506128))`, and converges toward `K`. -/
theorem lpf_step_response_monotone_bounded :
    (∀ n, stepResp n ≤ stepResp (n + 1)) ∧
    (∀ n, stepResp n ≤ Kdc) ∧
    (∀ ε : ℚ, 0 < ε → ∃ N, ∀ n, N ≤ n → Kdc - stepResp n < ε) := by
  refine ⟨?_, stepResp_le_Kdc, ?_⟩
  · intro n
    have h1 : stepResp n ≤ Kdc := stepResp_le_Kdc n
    have h2 : stepResp (n + 1) = 2 / lpfC + lpfB * stepResp n :=
      stepResp_succ n
    have h3 : (1 - lpfB) * Kdc = 2 / lpfC := by norm_num [Kdc, lpfB, lpfC]
    have h4 : (0 : ℚ) ≤ 1 - lpfB := by norm_num [lpfB]
    nlinarith [mul_le_mul_of_nonneg_left h1 h4]
  · intro ε hε
    have hg0 : (0 : ℚ) < Kdc - stepResp 0 := by
      rw [stepResp_zero]
      norm_num [Kdc, lpfB, lpfC]
    have hB0 : (0 : ℚ) < lpfB := by norm_num [lpfB]
    have hB1 : lpfB < 1 := by norm_num [lpfB]
    obtain ⟨N, hN⟩ := exists_pow_lt_of_lt_one (div_pos hε hg0) hB1
    refine ⟨N, fun n hn => ?_⟩
    have hpow : lpfB ^ n ≤ lpfB ^ N := pow_le_pow_of_le_one hB0.le hB1.le hn
    calc Kdc - stepResp n = lpfB ^ n * (Kdc - stepResp 0) := Kdc_gap n
      _ ≤ lpfB ^ N * (Kdc - stepResp 0) :=
          mul_le_mul_of_nonneg_right hpow hg0.le
      _ < ε := (lt_div_iff₀ hg0).mp hN

/-- Witness for C9: the convergence clause instantiated at tolerance 1. -/
theorem lpf_step_response_witness :
    (0 : ℚ) < 1 ∧ ∃ N, ∀ n, N ≤ n → Kdc - stepResp n < 1 :=
  ⟨by norm_num, lpf_step_response_monotone_bounded.2.2 1 (by norm_num)⟩

/-! ## Encoder copy order (claim C10) -/

theorem writeSeq_readList_getD (v src : Vec) (n i : ℕ) (h : i < n)
    (hn : n ≤ v.length) :
    (writeSeq v 0 (readList src 0 n)).getD i 0 = src.getD i 0 := by
  have h1 := writeSeq_getD_mem (readList src 0 n) v 0 i 0
    (by rw [readList_length]; exact h) (by rw [readList_length]; omega)
  simp only [Nat.zero_add] at h1
  rw [h1, readList_getD src 0 n i h, Nat.zero_add]

theorem triple_write_getD_first (v t l r : Vec) (a b : ℕ)
    (ha : t.length = a) (hb : l.length = b)
    (hv : a + b + r.length ≤ v.length) (i : ℕ) (hi : i < a) :
    (writeSeq (writeSeq (writeSeq v 0 t) a l) (a + b) r).getD i 0 =
      t.getD i 0 := by
  rw [writeSeq_getD_lt r _ _ i 0 (by omega),
    writeSeq_getD_lt l _ _ i 0 (by omega)]
  have h := writeSeq_getD_mem t v 0 i 0 (by omega) (by omega)
  simpa using h

theorem triple_write_getD_second (v t l r : Vec) (a b : ℕ)
    (ha : t.length = a) (hb : l.length = b)
    (hv : a + b + r.length ≤ v.length) (i : ℕ) (hi : i < b) :
    (writeSeq (writeSeq (writeSeq v 0 t) a l) (a + b) r).getD (a + i) 0 =
      l.getD i 0 := by
  rw [writeSeq_getD_lt r _ _ (a + i) 0 (by omega)]
  exact writeSeq_getD_mem l _ a i 0 (by omega) (by rw [writeSeq_length]; omega)

theorem triple_write_getD_third (v t l r : Vec) (a b : ℕ)
    (ha : t.length = a) (hb : l.length = b)
    (hv : a + b + r.length ≤ v.length) (i : ℕ) (hi : i < r.length) :
    (writeSeq (writeSeq (writeSeq v 0 t) a l) (a + b) r).getD (a + b + i) 0 =
      r.getD i 0 :=
  writeSeq_getD_mem r _ (a + b) i 0 hi
    (by rw [writeSeq_length, writeSeq_length]; omega)

/-- Claim C10: when joint positions are read, the torso group position
vector is filled in reversed encoder order — `q_torso(i) = encoders_torso(2-i)`
for `i = 0,1,2` — and the same reversed values land in the concatenated
super-group vector, whereas every other group (head, arms, legs) copies its
encoder values in natural index order into its position vector and into its
slice of the concatenated super-group vector. -/
theorem encoder_copy_order (env : Env) (s : IDState)
    (hT : s.low.q_torso.length = 3)
    (hLow : 3 + s.low.q_lleg.length + s.low.q_rleg.length ≤
      s.all_q_low.length)
    (hUp : s.up.q_head.length + s.up.q_larm.length + s.up.q_rarm.length ≤
      s.all_q_up.length) :
    (∀ i, i < 3 →
      (getLowerEncodersSpeedAndAcceleration env s).1.low.q_torso.getD i 0 =
        (env.enc_torso.getD s.encoders_torso).getD (2 - i) 0 ∧
      (getLowerEncodersSpeedAndAcceleration env s).1.all_q_low.getD i 0 =
        (env.enc_torso.getD s.encoders_torso).getD (2 - i) 0) ∧
    (∀ i, i < s.low.q_lleg.length →
      (getLowerEncodersSpeedAndAcceleration env s).1.low.q_lleg.getD i 0 =
        (env.enc_leg_left.getD s.encoders_leg_left).getD i 0 ∧
      (getLowerEncodersSpeedAndAcceleration env s).1.all_q_low.getD
          (s.low.q_torso.length + i) 0 =
        (env.enc_leg_left.getD s.encoders_leg_left).getD i 0) ∧
    (∀ i, i < s.low.q_rleg.length →
      (getLowerEncodersSpeedAndAcceleration env s).1.low.q_rleg.getD i 0 =
        (env.enc_leg_right.getD s.encoders_leg_right).getD i 0 ∧
      (getLowerEncodersSpeedAndAcceleration env s).1.all_q_low.getD
          (s.low.q_torso.length + s.low.q_lleg.length + i) 0 =
        (env.enc_leg_right.getD s.encoders_leg_right).getD i 0) ∧
    (∀ i, i < s.up.q_head.length →
      (getUpperEncodersSpeedAndAcceleration env s).1.up.q_head.getD i 0 =
        (env.enc_head.getD s.encoders_head).getD i 0 ∧
      (getUpperEncodersSpeedAndAcceleration env s).1.all_q_up.getD i 0 =
        (env.enc_head.getD s.encoders_head).getD i 0) ∧
    (∀ i, i < s.up.q_larm.length →
      (getUpperEncodersSpeedAndAcceleration env s).1.up.q_larm.getD i 0 =
        (env.enc_arm_left.getD s.encoders_arm_left).getD i 0 ∧
      (getUpperEncodersSpeedAndAcceleration env s).1.all_q_up.getD
          (s.up.q_head.length + i) 0 =
        (env.enc_arm_left.getD s.encoders_arm_left).getD i 0) ∧
    (∀ i, i < s.up.q_rarm.length →
      (getUpperEncodersSpeedAndAcceleration env s).1.up.q_rarm.getD i 0 =
        (env.enc_arm_right.getD s.encoders_arm_right).getD i 0 ∧
      (getUpperEncodersSpeedAndAcceleration env s).1.all_q_up.getD
          (s.up.q_head.length + s.up.q_larm.length + i) 0 =
        (env.enc_arm_right.getD s.encoders_arm_right).getD i 0) := by
  have hAllLow : (getLowerEncodersSpeedAndAcceleration env s).1.all_q_low =
      writeSeq (writeSeq (writeSeq s.all_q_low 0
          ((List.range s.low.q_torso.length).map fun k =>
            (env.enc_torso.getD s.encoders_torso).getD (2 - k) 0))
        s.low.q_torso.length
        (readList (env.enc_leg_left.getD s.encoders_leg_left) 0
          s.low.q_lleg.length))
      (s.low.q_torso.length + s.low.q_lleg.length)
      (readList (env.enc_leg_right.getD s.encoders_leg_right) 0
        s.low.q_rleg.length) := rfl
  have hAllUp : (getUpperEncodersSpeedAndAcceleration env s).1.all_q_up =
      writeSeq (writeSeq (writeSeq s.all_q_up 0
          (readList (env.enc_head.getD s.encoders_head) 0
            s.up.q_head.length))
        s.up.q_head.length
        (readList (env.enc_arm_left.getD s.encoders_arm_left) 0
          s.up.q_larm.length))
      (s.up.q_head.length + s.up.q_larm.length)
      (readList (env.enc_arm_right.getD s.encoders_arm_right) 0
        s.up.q_rarm.length) := rfl
  refine ⟨fun i hi => ⟨?_, ?_⟩, fun i hi => ⟨?_, ?_⟩, fun i hi => ⟨?_, ?_⟩,
    fun i hi => ⟨?_, ?_⟩, fun i hi => ⟨?_, ?_⟩, fun i hi => ⟨?_, ?_⟩⟩
  · exact writeSeq_range_getD s.low.q_torso _ s.low.q_torso.length i
      (by omega) (le_refl _)
  · rw [hAllLow, triple_write_getD_first _ _ _ _ _ _ (by simp)
      (readList_length _ _ _) (by rw [readList_length]; omega) i (by omega),
      getD_map_range _ _ i 0 (by omega)]
  · show (writeSeq s.low.q_lleg 0
        (readList (env.enc_leg_left.getD s.encoders_leg_left) 0
          s.low.q_lleg.length)).getD i 0 =
      (env.enc_leg_left.getD s.encoders_leg_left).getD i 0
    exact writeSeq_readList_getD _ _ _ i hi (le_refl _)
  · rw [hAllLow, triple_write_getD_second _ _ _ _ _ _ (by simp)
      (readList_length _ _ _) (by rw [readList_length]; omega) i hi,
      readList_getD _ _ _ i hi]
    norm_num
  · show (writeSeq s.low.q_rleg 0
        (readList (env.enc_leg_right.getD s.encoders_leg_right) 0
          s.low.q_rleg.length)).getD i 0 =
      (env.enc_leg_right.getD s.encoders_leg_right).getD i 0
    exact writeSeq_readList_getD _ _ _ i hi (le_refl _)
  · rw [hAllLow, triple_write_getD_third _ _ _ _ _ _ (by simp)
      (readList_length _ _ _) (by rw [readList_length]; omega) i
      (by rw [readList_length]; exact hi),
      readList_getD _ _ _ i hi]
    norm_num
  · show (writeSeq s.up.q_head 0
        (readList (env.enc_head.getD s.encoders_head) 0
          s.up.q_head.length)).getD i 0 =
      (env.enc_head.getD s.encoders_head).getD i 0
    exact writeSeq_readList_getD _ _ _ i hi (le_refl _)
  · rw [hAllUp, triple_write_getD_first _ _ _ _ _ _
      (readList_length _ _ _) (readList_length _ _ _)
      (by rw [readList_length]; omega) i hi,
      readList_getD _ _ _ i hi]
    norm_num
  · show (writeSeq s.up.q_larm 0
        (readList (env.enc_arm_left.getD s.encoders_arm_left) 0
          s.up.q_larm.length)).getD i 0 =
      (env.enc_arm_left.getD s.encoders_arm_left).getD i 0
    exact writeSeq_readList_getD _ _ _ i hi (le_refl _)
  · rw [hAllUp, triple_write_getD_second _ _ _ _ _ _
      (readList_length _ _ _) (readList_length _ _ _)
      (by rw [readList_length]; omega) i hi,
      readList_getD _ _ _ i hi]
    norm_num
  · show (writeSeq s.up.q_rarm 0
        (readList (env.enc_arm_right.getD s.encoders_arm_right) 0
          s.up.q_rarm.length)).getD i 0 =
      (env.enc_arm_right.getD s.encoders_arm_right).getD i 0
    exact writeSeq_readList_getD _ _ _ i hi (le_refl _)
  · rw [hAllUp, triple_write_getD_third _ _ _ _ _ _
      (readList_length _ _ _) (readList_length _ _ _)
      (by rw [readList_length]; omega) i
      (by rw [readList_length]; exact hi),
      readList_getD _ _ _ i hi]
    norm_num

/-- Witness for C10: with distinctive torso encoder values `[10,20,30]` the
position vector comes out reversed (`q_torso(0) = 30`) while the left leg
copies naturally (`q_lleg(0) = 31`). -/
theorem encoder_copy_order_witness :
    initState.low.q_torso.length = 3 ∧
    (getLowerEncodersSpeedAndAcceleration envEnc initState).1.low.q_torso.getD
      0 0 = 30 ∧
    (getLowerEncodersSpeedAndAcceleration envEnc initState).1.low.q_lleg.getD
      0 0 = 31 := by
  have h := encoder_copy_order envEnc initState rfl (by decide) (by decide)
  exact ⟨rfl, ((h.1 0 (by norm_num)).1).trans rfl,
    ((h.2.1 0 (by decide)).1).trans rfl⟩

end WBTO

